import Mathlib

/-!
Verification of the site-diff checker (src/main.rs): the per-site
check-and-diff state machine, diff computation and diff rendering.

The external capabilities are not part of src/ and are modelled at their
interface, as the spec describes them: the HTTP transport is an input
(its outcome, a status plus raw body or a transport error), spawning the
notify-send process is an input (its spawn or wait outcome), and the
line diff of the external prettydiff crate is modelled from the spec as
a deterministic longest-common-subsequence line diff. The body bytes are
represented by their lossily decoded text, since the spec states the
bytes are decoded lossily, never failing, and the decoding itself lives
in the external standard library.
-/

namespace SiteChecker

/-- Single-quote character, used when the notification description quotes
the new status. -/
def squote : String := String.singleton (Char.ofNat 39)

/-- Diff opcode, as in the prettydiff crate used by src/main.rs: an equal
run, an insert run (lines only in the new text), a remove run (lines only
in the old text), or a replace run (a block of old lines replaced by a
block of new lines). -/
inductive DiffOp where
| Equal (lines : List String)
| Insert (lines : List String)
| Remove (lines : List String)
| Replace (old new : List String)
deriving DecidableEq

/-- The filter predicate of SiteResult::diff (src/main.rs lines 123-126):
keep every opcode that is not an equal run. -/
def nonEqualOp : DiffOp → Bool
| .Equal _ => false
| _ => true

/-- Modelled from the spec: the line-based diff splits the decoded text
into lines at newline characters (the splitting happens inside the
external prettydiff crate). -/
def splitLines : List Char → List (List Char)
| [] => [[]]
| c :: cs =>
  match splitLines cs with
  | [] => [[]]
  | l :: ls => if c = '\n' then [] :: l :: ls else (c :: l) :: ls

/-- Modelled from the spec: the decoded body text as a list of lines. -/
def linesOf (s : String) : List String :=
  (splitLines s.data).map (fun cs => String.mk cs)

/-- Modelled from the spec: a longest common subsequence of two line
lists (the spec requires an LCS-style, order-preserving, minimal,
deterministic line diff; the exact algorithm is an implementation detail
of the external prettydiff crate). Fuel equal to the combined length
makes the recursion structural; every recursive call lowers the combined
length together with the fuel, so the fuel is never exhausted before a
base case. -/
def lcsFuel : Nat → List String → List String → List String
| 0, _, _ => []
| _ + 1, [], _ => []
| _ + 1, _ :: _, [] => []
| n + 1, x :: xs, y :: ys =>
  if x = y then
    x :: lcsFuel n xs ys
  else
    let a := lcsFuel n xs (y :: ys)
    let b := lcsFuel n (x :: xs) ys
    if a.length < b.length then b else a

/-- Modelled from the spec: the longest common subsequence of two line
lists. -/
def lcs (xs ys : List String) : List String :=
  lcsFuel (xs.length + ys.length) xs ys

/-- Splits a list at the first occurrence of c: the segment before it
and the remainder after it. -/
def splitFirst (c : String) : List String → List String × List String
| [] => ([], [])
| x :: xs =>
  if x = c then ([], xs)
  else
    let p := splitFirst c xs
    (x :: p.1, p.2)

/-- Modelled from the spec: the opcode emitted for one pair of
non-common segments: nothing when both are empty, an insert run when
only new lines exist, a remove run when only old lines exist, and a
replace run when both exist. -/
def mkOp : List String → List String → List DiffOp
| [], [] => []
| [], ys => [.Insert ys]
| xs, [] => [.Remove xs]
| xs, ys => [.Replace xs ys]

/-- Modelled from the spec: build the opcode sequence from the two line
lists and their common subsequence, emitting an insert, remove or
replace run between consecutive common lines and an equal run per
common line. -/
def diffWithLcs : List String → List String → List String → List DiffOp
| xs, ys, [] => mkOp xs ys
| xs, ys, c :: l =>
  let px := splitFirst c xs
  let py := splitFirst c ys
  mkOp px.1 py.1 ++ (DiffOp.Equal [c] :: diffWithLcs px.2 py.2 l)

/-- Modelled from the spec: the full opcode sequence for two line
lists. -/
def diffOps (xs ys : List String) : List DiffOp :=
  diffWithLcs xs ys (lcs xs ys)

/-- Modelled from the spec: diff_lines of the external prettydiff crate,
a deterministic LCS-style line diff of two texts. -/
def diff_lines (old new : String) : List DiffOp :=
  diffOps (linesOf old) (linesOf new)

/-- One fold step of render_diff (src/main.rs lines 146-153): an equal
run contributes nothing, the other runs append their rendered block. -/
def renderStep (acc : String) : DiffOp → String
| .Equal _ => acc
| .Insert a => acc ++ "Added:\n" ++ String.intercalate "\n" a ++ "\n\n"
| .Remove a => acc ++ "Removed:\n" ++ String.intercalate "\n" a ++ "\n\n"
| .Replace a b =>
    acc ++ "Replaced:\n" ++ String.intercalate "\n" a ++ "\nwith\n" ++
      String.intercalate "\n" b ++ "\n\n"

/-- render_diff from src/main.rs lines 145-154: fold over the opcodes,
appending one rendered block per non-equal opcode. -/
def render_diff (ops : List DiffOp) : String :=
  ops.foldl renderStep ""

/-- SiteResult from src/main.rs lines 31-35: HTTP status and body. The
status is the numeric status code and the body is represented by its
lossily decoded text; the concrete Rust types (reqwest StatusCode and
Bytes) are external to src/. -/
structure SiteResult where
  status : Nat
  bytes : String
deriving DecidableEq

/-- SiteResultDiff from src/main.rs lines 37-40: the change report, a
status change and a rendered content diff, each optional. -/
structure SiteResultDiff where
  status : Option Nat
  diff : Option String
deriving DecidableEq

/-- SiteResult::diff from src/main.rs lines 108-136. -/
def SiteResult.diff (self rhs : SiteResult) : SiteResultDiff :=
  let status := if self.status ≠ rhs.status then some rhs.status else none
  let changeset := diff_lines self.bytes rhs.bytes
  let d := changeset.filter nonEqualOp
  let diff := if !d.isEmpty then some (render_diff d) else none
  ⟨status, diff⟩

/-- SiteResultDiff::is_different from src/main.rs lines 140-142. -/
def SiteResultDiff.is_different (self : SiteResultDiff) : Bool :=
  self.status.isSome || self.diff.isSome

/-- SiteState from src/main.rs lines 24-29; the Client field is the
external HTTP transport handle and carries no per-site state. -/
structure SiteState where
  name : String
  href : String
  result : Option SiteResult
deriving DecidableEq

/-- Outcome of the external fetch (client get, send and bytes in
src/main.rs lines 45-53): a status with the raw body, or a transport
error (either of the two await question marks). -/
inductive FetchResult where
| success (status : Nat) (bytes : String)
| failure (msg : String)
deriving DecidableEq

/-- The error check() surfaces through its anyhow Result: a transport
error from the fetch, or a failure spawning or waiting on the
notify-send process. -/
inductive CheckError where
| transport (msg : String)
| notifyFailed (msg : String)
deriving DecidableEq

/-- One spawned notify-send invocation with its argument list
(src/main.rs lines 78-82). -/
structure NotifyCall where
  args : List String
deriving DecidableEq

/-- Everything one call to check() produces: the returned Result, the
state after the call, the notify-send invocations and the log lines. -/
structure CheckOutput where
  result : Except CheckError Unit
  state : SiteState
  notifications : List NotifyCall
  logs : List String

/-- The notification description composed in src/main.rs lines 64-74. -/
def composeBody (d : SiteResultDiff) : String :=
  match d.status, d.diff with
  | some s, some c =>
      "New status " ++ squote ++ toString s ++ squote ++
        " and site content changed\n" ++ c
  | some s, none => "New status " ++ squote ++ toString s ++ squote
  | none, some c => "Site content changed\n" ++ c
  | none, none => "Site content changed"

/-- SiteState::check from src/main.rs lines 43-94, with the two external
effects passed in as inputs (the fetch outcome and the notify-send spawn
and wait outcome) and the log lines and notify-send invocations returned
as data. A question-mark return of the source becomes an early return
carrying the state as mutated so far: in particular the source takes the
stored result (line 57) and only stores a value again at line 92, so the
notify-send error path returns with the stored result still taken
out. -/
def check (self : SiteState) (fetched : FetchResult)
    (notifySend : Except String Unit) : CheckOutput :=
  let logs0 := ["Checking " ++ self.name]
  match fetched with
  | .failure msg => ⟨.error (.transport msg), self, [], logs0⟩
  | .success status bytes =>
    let new_result : SiteResult := ⟨status, bytes⟩
    let taken : SiteState := { self with result := none }
    match self.result with
    | some prev =>
      let d := prev.diff new_result
      if d.is_different then
        let title := self.name ++ " Updated"
        let description := composeBody d
        let logs1 := logs0 ++ [title, description]
        let call : NotifyCall := ⟨["-i", "appointment", title]⟩
        match notifySend with
        | .error e => ⟨.error (.notifyFailed e), taken, [call], logs1⟩
        | .ok _ =>
            ⟨.ok (), { taken with result := some new_result }, [call], logs1⟩
      else
        ⟨.ok (), { taken with result := some new_result }, [], logs0⟩
    | none =>
      ⟨.ok (), { taken with result := some new_result }, [],
        logs0 ++ ["First check for " ++ self.name ++ ", status: " ++
          toString status]⟩

/-- Modelled from the spec: the rendering of one opcode exactly as the
spec words it, block by block; an equal run contributes nothing. Used to
compare the rendering rules of the spec with render_diff of the
source. -/
def spec_renderOpcode : DiffOp → String
| .Equal _ => ""
| .Insert a => "Added:\n" ++ String.intercalate "\n" a ++ "\n\n"
| .Remove a => "Removed:\n" ++ String.intercalate "\n" a ++ "\n\n"
| .Replace a b =>
    "Replaced:\n" ++ String.intercalate "\n" a ++ "\nwith\n" ++
      String.intercalate "\n" b ++ "\n\n"

/-- Modelled from the spec: concatenation of a list of rendered blocks,
in their original order. -/
def concatAll (l : List String) : String :=
  l.foldl (fun a b => a ++ b) ""

theorem lcsFuel_self (xs : List String) :
    ∀ n, xs.length ≤ n → lcsFuel n xs xs = xs := by
  induction xs with
  | nil =>
    intro n _
    cases n <;> rfl
  | cons x xs ih =>
    intro n hn
    cases n with
    | zero => simp at hn
    | succ m =>
      have hm : xs.length ≤ m := by
        simpa using hn
      simp [lcsFuel, ih m hm]

theorem lcs_self (xs : List String) : lcs xs xs = xs :=
  lcsFuel_self xs _ (by omega)

theorem diffWithLcs_self (xs : List String) :
    diffWithLcs xs xs xs = xs.map (fun c => DiffOp.Equal [c]) := by
  induction xs with
  | nil => rfl
  | cons x xs ih =>
    simp [diffWithLcs, splitFirst, mkOp, ih]

theorem diffOps_self (xs : List String) :
    diffOps xs xs = xs.map (fun c => DiffOp.Equal [c]) := by
  rw [diffOps, lcs_self, diffWithLcs_self]

theorem filter_nonEqual_map_equal (xs : List String) :
    (xs.map (fun c => DiffOp.Equal [c])).filter nonEqualOp = [] := by
  induction xs with
  | nil => rfl
  | cons x xs ih => simp [nonEqualOp, ih]

theorem renderStep_eq (acc : String) (op : DiffOp) :
    renderStep acc op = acc ++ spec_renderOpcode op := by
  cases op <;>
    simp [renderStep, spec_renderOpcode, String.append_assoc,
      String.append_empty]

theorem render_foldl (ops : List DiffOp) (acc : String) :
    ops.foldl renderStep acc = acc ++ render_diff ops := by
  induction ops generalizing acc with
  | nil => simp [render_diff, String.append_empty]
  | cons op rest ih =>
    show rest.foldl renderStep (renderStep acc op) = acc ++ render_diff (op :: rest)
    have hr : render_diff (op :: rest) = renderStep "" op ++ render_diff rest := by
      show rest.foldl renderStep (renderStep "" op) = _
      exact ih (renderStep "" op)
    rw [ih (renderStep acc op), hr, renderStep_eq, renderStep_eq,
      String.empty_append, String.append_assoc]

theorem render_diff_cons (op : DiffOp) (rest : List DiffOp) :
    render_diff (op :: rest) = spec_renderOpcode op ++ render_diff rest := by
  show rest.foldl renderStep (renderStep "" op) = _
  rw [render_foldl, renderStep_eq, String.empty_append]

theorem concatAll_cons (x : String) (l : List String) :
    concatAll (x :: l) = x ++ concatAll l := by
  have key : ∀ (l : List String) (acc : String),
      l.foldl (fun a b => a ++ b) acc = acc ++ concatAll l := by
    intro l
    induction l with
    | nil => intro acc; simp [concatAll, String.append_empty]
    | cons y l ih =>
      intro acc
      show l.foldl (fun a b => a ++ b) (acc ++ y) = acc ++ concatAll (y :: l)
      have hc : concatAll (y :: l) = ("" ++ y) ++ concatAll l := by
        show l.foldl (fun a b => a ++ b) ("" ++ y) = _
        exact ih ("" ++ y)
      rw [ih (acc ++ y), hc, String.empty_append, String.append_assoc]
  show l.foldl (fun a b => a ++ b) ("" ++ x) = x ++ concatAll l
  rw [key l ("" ++ x), String.empty_append]

theorem render_eq_concat (ops : List DiffOp) :
    render_diff ops = concatAll (ops.map spec_renderOpcode) := by
  induction ops with
  | nil => rfl
  | cons op rest ih =>
    rw [render_diff_cons, List.map_cons, concatAll_cons, ih]

theorem spec_renderOpcode_suffix (op : DiffOp) (h : nonEqualOp op = true) :
    ∃ t, spec_renderOpcode op = t ++ "\n\n" := by
  cases op with
  | Equal l => simp [nonEqualOp] at h
  | Insert a => exact ⟨"Added:\n" ++ String.intercalate "\n" a, rfl⟩
  | Remove a => exact ⟨"Removed:\n" ++ String.intercalate "\n" a, rfl⟩
  | Replace a b =>
    exact ⟨"Replaced:\n" ++ String.intercalate "\n" a ++ "\nwith\n" ++
      String.intercalate "\n" b, rfl⟩

theorem render_diff_suffix (ops : List DiffOp) (hne : ops ≠ [])
    (h : ∀ op ∈ ops, nonEqualOp op = true) :
    ∃ t, render_diff ops = t ++ "\n\n" := by
  induction ops with
  | nil => exact absurd rfl hne
  | cons op rest ih =>
    cases rest with
    | nil =>
      obtain ⟨t, ht⟩ := spec_renderOpcode_suffix op (h op (by simp))
      refine ⟨t, ?_⟩
      rw [render_diff_cons, ht]
      show (t ++ "\n\n") ++ render_diff [] = t ++ "\n\n"
      rw [show render_diff [] = "" from rfl, String.append_empty]
    | cons op2 rest2 =>
      obtain ⟨t, ht⟩ := ih (by simp) (fun o ho => h o (List.mem_cons_of_mem op ho))
      refine ⟨spec_renderOpcode op ++ t, ?_⟩
      rw [render_diff_cons, ht, String.append_assoc]

theorem append_suffix_ne_empty (s t : String) (h : s = t ++ "\n\n") :
    s ≠ "" := by
  intro he
  rw [he] at h
  have hd := congrArg String.data h
  rw [String.data_append] at hd
  simp at hd

/-- Claim C1: for every monitor state, with or without a prior snapshot,
if the transport fetch fails then check() returns the transport error,
leaves the whole state (in particular the stored snapshot) exactly as it
was, and dispatches no notification. -/
theorem check_transport_error_preserves_state (st : SiteState) (msg : String)
    (ns : Except String Unit) :
    (check st (.failure msg) ns).result = .error (.transport msg) ∧
    (check st (.failure msg) ns).state = st ∧
    (check st (.failure msg) ns).notifications = [] :=
  ⟨rfl, rfl, rfl⟩

/-- Claim C2 (code bug): the claim states that after every check whose
fetch succeeds the stored snapshot equals the newly fetched snapshot.
On the input below the fetch succeeds with status 500 and body b, the
change is detected, the notify-send spawn fails, and check() returns the
notify error with the stored snapshot cleared to none: neither the old
nor the newly fetched snapshot is stored. -/
theorem notify_failure_loses_snapshot :
    (check ⟨"Site", "u", some ⟨200, "a"⟩⟩ (.success 500 "b")
        (.error "spawn failed")).state.result = none ∧
    (check ⟨"Site", "u", some ⟨200, "a"⟩⟩ (.success 500 "b")
        (.error "spawn failed")).state.result ≠ some ⟨500, "b"⟩ ∧
    (check ⟨"Site", "u", some ⟨200, "a"⟩⟩ (.success 500 "b")
        (.error "spawn failed")).result =
      .error (.notifyFailed "spawn failed") := by
  refine ⟨rfl, ?_, rfl⟩
  decide

/-- Claim C3 (code bug): the claim states that a notification dispatch
failure is logged rather than fatal and leaves the snapshot update in
place. On the input below the fetch succeeds with status 500 and body b
and the notify-send wait fails: check() returns the error (fatal to the
check) and the stored snapshot is none rather than the newly fetched
snapshot. -/
theorem notify_failure_fatal_and_clears_snapshot :
    (check ⟨"Site", "u", some ⟨200, "a"⟩⟩ (.success 500 "b")
        (.error "wait failed")).result =
      .error (.notifyFailed "wait failed") ∧
    (check ⟨"Site", "u", some ⟨200, "a"⟩⟩ (.success 500 "b")
        (.error "wait failed")).state.result ≠ some ⟨500, "b"⟩ := by
  refine ⟨rfl, ?_⟩
  decide

/-- Claim C4 counterexample: with prior snapshot (200, A) and fetched
(404, A) the change report is different and check() spawns notify-send
exactly once, but the argument list of that invocation carries only the
flag, the icon and the title; the composed body (New status quoted 404)
is not among the arguments passed to the notifier. -/
theorem notify_body_not_passed :
    (check ⟨"X", "u", some ⟨200, "A"⟩⟩ (.success 404 "A")
        (.ok ())).notifications =
      [⟨["-i", "appointment", "X Updated"]⟩] ∧
    ("New status " ++ squote ++ "404" ++ squote) ∉
      (["-i", "appointment", "X Updated"] : List String) := by
  refine ⟨by decide, by decide⟩

/-- Claim C4 (amended): whenever a prior snapshot exists and the change
report is different, check() spawns notify-send exactly once, with the
arguments flag -i, icon appointment and title name Updated, and the
composed description is written to the log; the description follows the
stated composition rules: new status plus content diff when both are
present, new status alone when only the status changed, and site content
changed plus the diff when only the content changed. -/
theorem change_notifies_title_and_logs_body (st : SiteState) (P : SiteResult)
    (status : Nat) (bytes : String) (ns : Except String Unit)
    (hP : st.result = some P)
    (hdiff : (P.diff ⟨status, bytes⟩).is_different = true) :
    (check st (.success status bytes) ns).notifications =
      [⟨["-i", "appointment", st.name ++ " Updated"]⟩] ∧
    composeBody (P.diff ⟨status, bytes⟩) ∈
      (check st (.success status bytes) ns).logs ∧
    (∀ s c, (P.diff ⟨status, bytes⟩).status = some s →
      (P.diff ⟨status, bytes⟩).diff = some c →
      composeBody (P.diff ⟨status, bytes⟩) =
        "New status " ++ squote ++ toString s ++ squote ++
          " and site content changed\n" ++ c) ∧
    (∀ s, (P.diff ⟨status, bytes⟩).status = some s →
      (P.diff ⟨status, bytes⟩).diff = none →
      composeBody (P.diff ⟨status, bytes⟩) =
        "New status " ++ squote ++ toString s ++ squote) ∧
    (∀ c, (P.diff ⟨status, bytes⟩).status = none →
      (P.diff ⟨status, bytes⟩).diff = some c →
      composeBody (P.diff ⟨status, bytes⟩) = "Site content changed\n" ++ c) := by
  refine ⟨?_, ?_, ?_, ?_, ?_⟩
  · cases ns <;> simp [check, hP, hdiff]
  · cases ns <;> simp [check, hP, hdiff]
  · intro s c h1 h2
    simp [composeBody, h1, h2]
  · intro s h1 h2
    simp [composeBody, h1, h2]
  · intro c h1 h2
    simp [composeBody, h1, h2]

/-- Witness for claim C4 (amended) at prior snapshot (200, A) and
fetched (404, A). -/
theorem change_notifies_title_and_logs_body_witness :
    (check ⟨"X", "u", some ⟨200, "A"⟩⟩ (.success 404 "A")
        (.ok ())).notifications =
      [⟨["-i", "appointment", "X" ++ " Updated"]⟩] ∧
    composeBody ((SiteResult.mk 200 "A").diff ⟨404, "A"⟩) ∈
      (check ⟨"X", "u", some ⟨200, "A"⟩⟩ (.success 404 "A") (.ok ())).logs :=
  ⟨(change_notifies_title_and_logs_body ⟨"X", "u", some ⟨200, "A"⟩⟩ ⟨200, "A"⟩
      404 "A" (.ok ()) rfl (by decide)).1,
    (change_notifies_title_and_logs_body ⟨"X", "u", some ⟨200, "A"⟩⟩ ⟨200, "A"⟩
      404 "A" (.ok ()) rfl (by decide)).2.1⟩

/-- Claim C5: the change report of diff has statusChanged equal to some
new status exactly when the statuses differ, has contentDiff equal to
some rendered text exactly when the filtered non-equal opcode sequence
of the line diff of the two bodies is non-empty, and is_different holds
exactly when statusChanged or contentDiff is present. -/
theorem diff_report_fields (P N : SiteResult) :
    (P.diff N).status = (if P.status ≠ N.status then some N.status else none) ∧
    (P.diff N).diff =
      (if ((diff_lines P.bytes N.bytes).filter nonEqualOp).isEmpty then none
       else some (render_diff ((diff_lines P.bytes N.bytes).filter nonEqualOp))) ∧
    ((P.diff N).is_different = true ↔
      ((P.diff N).status.isSome = true ∨ (P.diff N).diff.isSome = true)) := by
  refine ⟨rfl, ?_, ?_⟩
  · show (if !((diff_lines P.bytes N.bytes).filter nonEqualOp).isEmpty then
        some (render_diff ((diff_lines P.bytes N.bytes).filter nonEqualOp))
      else none) = _
    cases he : ((diff_lines P.bytes N.bytes).filter nonEqualOp).isEmpty <;>
      simp [he]
  · show (SiteResultDiff.is_different (P.diff N)) = true ↔ _
    simp [SiteResultDiff.is_different, Bool.or_eq_true]

/-- Claim C6: check() on a monitor with no prior snapshot never spawns
notify-send, whatever the fetched status and content; it stores the new
snapshot as the baseline, logs the first-check line, and returns Ok. -/
theorem first_check_no_notify (st : SiteState) (status : Nat) (bytes : String)
    (ns : Except String Unit) (h : st.result = none) :
    (check st (.success status bytes) ns).notifications = [] ∧
    (check st (.success status bytes) ns).state.result = some ⟨status, bytes⟩ ∧
    ("First check for " ++ st.name ++ ", status: " ++ toString status) ∈
      (check st (.success status bytes) ns).logs ∧
    (check st (.success status bytes) ns).result = .ok () := by
  refine ⟨?_, ?_, ?_, ?_⟩ <;> simp [check, h]

/-- Witness for claim C6 on a never-checked monitor fetching status 500
with an arbitrary body. -/
theorem first_check_no_notify_witness :
    (check ⟨"X", "u", none⟩ (.success 500 "body") (.ok ())).notifications = [] ∧
    (check ⟨"X", "u", none⟩ (.success 500 "body") (.ok ())).state.result =
      some ⟨500, "body"⟩ ∧
    ("First check for " ++ "X" ++ ", status: " ++ toString 500) ∈
      (check ⟨"X", "u", none⟩ (.success 500 "body") (.ok ())).logs ∧
    (check ⟨"X", "u", none⟩ (.success 500 "body") (.ok ())).result = .ok () :=
  first_check_no_notify ⟨"X", "u", none⟩ 500 "body" (.ok ()) rfl

/-- Claim C7: for every sequence of non-equal opcodes, render_diff is
the concatenation, in the original order, of the spec rendering of each
opcode: Added plus the new lines for an insert run, Removed plus the old
lines for a remove run, and Replaced, the old lines, with, the new lines
for a replace run, each block terminated by a blank line. -/
theorem render_diff_spec (ops : List DiffOp)
    (_h : ∀ op ∈ ops, nonEqualOp op = true) :
    render_diff ops = concatAll (ops.map spec_renderOpcode) :=
  render_eq_concat ops

/-- Witness for claim C7 on a replace run followed by an insert run. -/
theorem render_diff_spec_witness :
    render_diff [DiffOp.Replace ["a"] ["b"], DiffOp.Insert ["c"]] =
      concatAll ([DiffOp.Replace ["a"] ["b"],
        DiffOp.Insert ["c"]].map spec_renderOpcode) :=
  render_diff_spec _ (by decide)

/-- Claim C8: diffing a snapshot against an identical copy of itself
yields a report with no status change, no content diff, and
is_different false. -/
theorem diff_self_noop (s : SiteResult) :
    (s.diff s).status = none ∧ (s.diff s).diff = none ∧
    (s.diff s).is_different = false := by
  have hfilter : (diff_lines s.bytes s.bytes).filter nonEqualOp = [] := by
    rw [diff_lines, diffOps_self]
    exact filter_nonEqual_map_equal _
  refine ⟨?_, ?_, ?_⟩
  · simp [SiteResult.diff]
  · simp [SiteResult.diff, hfilter]
  · simp [SiteResult.diff, SiteResultDiff.is_different, hfilter]

/-- Claim C10: whenever diff produces a content diff, the rendered text
is a non-empty string that ends in a blank line, two newline characters,
because every rendered non-equal opcode appends a block terminated that
way. -/
theorem contentDiff_block_terminated (P N : SiteResult) (s : String)
    (h : (P.diff N).diff = some s) :
    s ≠ "" ∧ ∃ t, s = t ++ "\n\n" := by
  have h2 : (if !((diff_lines P.bytes N.bytes).filter nonEqualOp).isEmpty then
      some (render_diff ((diff_lines P.bytes N.bytes).filter nonEqualOp))
    else none) = some s := h
  cases he : ((diff_lines P.bytes N.bytes).filter nonEqualOp).isEmpty with
  | true =>
    rw [he] at h2
    simp at h2
  | false =>
    rw [he] at h2
    simp only [Bool.not_false, if_true] at h2
    have hne : (diff_lines P.bytes N.bytes).filter nonEqualOp ≠ [] := by
      intro hnil
      rw [hnil] at he
      simp at he
    have hall : ∀ op ∈ (diff_lines P.bytes N.bytes).filter nonEqualOp,
        nonEqualOp op = true := fun op hop => List.of_mem_filter hop
    obtain ⟨t, ht⟩ := render_diff_suffix _ hne hall
    rw [ht] at h2
    have h3 : t ++ "\n\n" = s := Option.some.inj h2
    exact ⟨append_suffix_ne_empty s t h3.symm, t, h3.symm⟩

/-- Witness for claim C10 at prior body a and new body b: the content
diff is the replace block, non-empty and blank-line terminated. -/
theorem contentDiff_block_terminated_witness :
    ((SiteResult.mk 200 "a").diff ⟨200, "b"⟩).diff =
      some "Replaced:\na\nwith\nb\n\n" ∧
    ("Replaced:\na\nwith\nb\n\n" ≠ "" ∧
      ∃ t, "Replaced:\na\nwith\nb\n\n" = t ++ "\n\n") :=
  ⟨by decide,
    contentDiff_block_terminated ⟨200, "a"⟩ ⟨200, "b"⟩ _ (by decide)⟩

end SiteChecker
